import Mathlib

/-!
Shallow embedding of the AIVoyage route-planning and route-monitoring core.

Planner side (`RoutePlanEngine.ts`, `TrafficService.ts`, `WeatherService.ts`):
numbers are modelled as rationals (the code performs only field arithmetic
here), every definition is computable.  The HTTP boundary is modelled by
passing the already-parsed collaborator responses as parameters: `paths` is
the parsed `route.paths` array, `trafficFetch` gives the `TrafficResult` that
`getTrafficByRectangle` would return for a given point list, `weatherRes` the
`WeatherResult` of `getWeatherByLocation`, `poiRecs` the recommendations of
`recommendAlongRoute`, and `now` the value of `Date.now()`.

Monitor side (`TrafficEventService.ts`, `RouteServiceAbility.ts`): the
geometry uses real-valued trigonometry, with an explicit NaN/Infinity model
(`Option ℝ` and `FDist`) where the JavaScript code can produce them.
-/

namespace AIVoyage

/-- Coordinate pair `{lng, lat}` as used throughout the sources.  Parsed
coordinates are decimal numbers; they are modelled as rationals. -/
structure Coord where
  lng : ℚ
  lat : ℚ
deriving DecidableEq

/-- JavaScript `parseInt(s) || 0` / `parseFloat`-style defaulting is applied at
the JSON boundary; parsed numeric payloads enter the model as numbers already.
`jsParseIntOr0` models `parseInt(str) || 0` on the few string fields the core
itself parses (`WeatherInfo.windPower`): optional sign, then the leading
decimal-digit run; anything unparsable (including `NaN || 0`) gives 0. -/
def jsParseIntOr0 (s : String) : ℤ :=
  let chars := s.toList.dropWhile (fun c => c = ' ')
  let (sign, rest) :=
    match chars with
    | '-' :: r => ((-1 : ℤ), r)
    | '+' :: r => ((1 : ℤ), r)
    | r => ((1 : ℤ), r)
  let digits := rest.takeWhile Char.isDigit
  let n : ℤ := digits.foldl (fun acc c => acc * 10 + (c.toNat - '0'.toNat : ℤ)) 0
  if digits.isEmpty then 0 else sign * n

/-- Model of JavaScript `String.prototype.includes`: `sub` occurs as a
contiguous substring of `s` (on code points, which is what the sources
compare). -/
def strIncludes (s sub : String) : Bool :=
  let rec go : List Char → Bool
    | [] => sub.toList.isPrefixOf []
    | c :: cs => sub.toList.isPrefixOf (c :: cs) || go cs
  go s.toList

/-- Live weather reading (`WeatherService.WeatherInfo`): the upstream API
delivers every field as a string. -/
structure WeatherInfo where
  city : String
  weather : String
  temperature : String
  windDirection : String
  windPower : String
  humidity : String
  reportTime : String
deriving DecidableEq

/-- Result of `WeatherService.getWeatherByLocation`; on any network, key or
parse failure the service catches and returns `success = false`. -/
structure WeatherResult where
  success : Bool
  live : Option WeatherInfo
deriving DecidableEq

/-- Outcome of `WeatherService.evaluateWeatherImpact`. -/
structure WeatherImpactEval where
  impact : ℚ
  level : String
  reason : String
deriving DecidableEq

/-- WeatherService.evaluateWeatherImpact: accumulates impact contributions
from the weather-description keywords and the parsed wind power, caps the
total at 1, and classifies it into a level. -/
def evaluateWeatherImpact (weather : WeatherInfo) : WeatherImpactEval :=
  let weatherType := weather.weather
  let impact : ℚ := 0
  let reasons : List String := []
  let (impact, reasons) :=
    if strIncludes weatherType "暴雨" || strIncludes weatherType "大暴雨" then
      (impact + 1/2, reasons ++ ["暴雨"])
    else if strIncludes weatherType "大雨" || strIncludes weatherType "中雨" then
      (impact + 3/10, reasons ++ ["降雨"])
    else if strIncludes weatherType "雨" then
      (impact + 1/10, reasons ++ ["小雨"])
    else (impact, reasons)
  let (impact, reasons) :=
    if strIncludes weatherType "暴雪" || strIncludes weatherType "大雪" then
      (impact + 3/5, reasons ++ ["大雪"])
    else if strIncludes weatherType "雪" then
      (impact + 3/10, reasons ++ ["降雪"])
    else (impact, reasons)
  let (impact, reasons) :=
    if strIncludes weatherType "大雾" || strIncludes weatherType "浓雾" then
      (impact + 1/2, reasons ++ ["大雾"])
    else if strIncludes weatherType "雾" then
      (impact + 1/5, reasons ++ ["有雾"])
    else (impact, reasons)
  let (impact, reasons) :=
    if strIncludes weatherType "霾" then
      (impact + 3/20, reasons ++ ["雾霾"])
    else (impact, reasons)
  let windPower := jsParseIntOr0 weather.windPower
  let (impact, reasons) :=
    if windPower ≥ 8 then (impact + 3/10, reasons ++ ["强风"])
    else if windPower ≥ 6 then (impact + 3/20, reasons ++ ["大风"])
    else (impact, reasons)
  let impact := min impact 1
  let level :=
    if impact ≥ 1/2 then "严重影响"
    else if impact ≥ 3/10 then "中度影响"
    else if impact ≥ 1/10 then "轻微影响"
    else "无影响"
  { impact := impact
    level := level
    reason := if reasons.isEmpty then "天气良好" else String.intercalate "、" reasons }

/-- Area traffic evaluation block of a `TrafficResult`
(`TrafficService.TrafficStatus`). -/
structure TrafficStatus where
  status : String
  statusText : String
  expedite : ℚ
  congested : ℚ
  blocked : ℚ
  description : String
deriving DecidableEq

/-- Result of `TrafficService.getTrafficByRectangle`; the service catches all
failures (missing key, network, non-"1" status, parse) and returns
`success = false` with `status? = none`. -/
structure TrafficResult where
  success : Bool
  status : Option TrafficStatus
deriving DecidableEq

/-- Outcome of `TrafficService.evaluateRouteTraffic`. -/
structure RouteTrafficEval where
  avgStatus : String
  congestionRate : ℚ
  tips : String
deriving DecidableEq

/-- TrafficService.evaluateRouteTraffic, with the rectangle query's response
supplied as `fetched`.  On fewer than two points, or on a failed fetch, the
congestion rate falls back to 0 with status "unknown"; otherwise the rate is
`congested + blocked`. -/
def evaluateRouteTraffic (points : List Coord) (fetched : TrafficResult) :
    RouteTrafficEval :=
  if points.length < 2 then
    { avgStatus := "unknown", congestionRate := 0, tips := "路径点不足" }
  else
    match fetched.success, fetched.status with
    | true, some status =>
      let congestionRate := status.congested + status.blocked
      let tips :=
        if congestionRate > 50 then "前方路段严重拥堵，建议绕行"
        else if congestionRate > 30 then "前方有轻微拥堵，请耐心等待"
        else "前方道路畅通"
      { avgStatus := status.statusText, congestionRate := congestionRate, tips := tips }
    | _, _ => { avgStatus := "unknown", congestionRate := 0, tips := "无法获取路况" }

/-- Per-route score breakdown (`RoutePlanResult.routes[].scoreDetails`). -/
structure ScoreDetails where
  timeScore : ℚ
  distanceScore : ℚ
  trafficScore : ℚ
  weatherScore : ℚ
  preferenceScore : ℚ
deriving DecidableEq

/-- One navigation step of a route. -/
structure RouteStep where
  instruction : String
  distanceMeters : ℚ
  durationSeconds : ℚ
deriving DecidableEq

/-- One candidate route of a `RoutePlanResult`. -/
structure Route where
  id : String
  distanceMeters : ℚ
  durationSeconds : ℚ
  score : ℚ
  scoreDetails : ScoreDetails
  trafficStatus : Option String
  weatherImpact : Option String
  steps : List RouteStep
  points : List Coord
  tolls : ℚ
  trafficLights : ℚ
deriving DecidableEq

/-- A point of interest (`POIService.POIInfo`), carried through planning
unmodified. -/
structure POIInfo where
  id : String
  name : String
  type : String
  address : String
  location : Coord
deriving DecidableEq

/-- One recommendation group returned by `POIService.recommendAlongRoute`. -/
structure POIRecommendation where
  pois : List POIInfo
deriving DecidableEq

/-- The planner's result (`RoutePlanEngine.RoutePlanResult`). -/
structure RoutePlanResult where
  recommendedRouteId : String
  routes : List Route
  pois : Option (List POIInfo)
  weather : Option WeatherInfo
  generatedAt : ℤ
  aiSummary : Option String
deriving DecidableEq

/-- Raw path as parsed from the direction API response, after the JSON-string
fields have gone through `parseInt(x || '0')` and `parseRoutePoints`.  The
numeric fields are the non-negative integers `parseInt` produces. -/
structure RawPath where
  distance : ℕ
  duration : ℕ
  steps : List RouteStep
  points : List Coord
  tolls : ℕ
  trafficLights : ℕ
deriving DecidableEq

/-- User preferences from `AppConfig.getUserPreferences` (the fields
`planRoute` reads). -/
structure UserPreferences where
  avoidHighway : Bool
  avoidToll : Bool
deriving DecidableEq

/-- Planning parameters (`RoutePlanEngine.RoutePlanParams`); the optional
booleans keep their three JavaScript states `undefined / true / false`
because `planRoute` tests them with `!== false`. -/
structure RoutePlanParams where
  preferences : List String
  considerTraffic : Option Bool
  considerWeather : Option Bool
  searchPOI : Option Bool
deriving DecidableEq

/-- Preference merge at the top of `planRoute`: user-level avoid flags are
appended unless already requested. -/
def mergePreferences (params : RoutePlanParams) (userPrefs : UserPreferences) :
    List String :=
  let prefs := params.preferences
  let prefs :=
    if userPrefs.avoidHighway && !(prefs.contains "avoid_highway") then
      prefs ++ ["avoid_highway"]
    else prefs
  if userPrefs.avoidToll && !(prefs.contains "avoid_toll") then
    prefs ++ ["avoid_toll"]
  else prefs

/-- RoutePlanEngine.getRouteStrategy: maps the preference tags to the
direction API's strategy code. -/
def getRouteStrategy (preferences : List String) : String :=
  if preferences.contains "avoid_highway" && preferences.contains "avoid_toll" then "6"
  else if preferences.contains "avoid_highway" then "5"
  else if preferences.contains "avoid_toll" then "6"
  else if preferences.contains "shortest" then "2"
  else if preferences.contains "fastest" then "4"
  else if preferences.contains "economical" then "1"
  else "0"

/-- Minimum of a batch of values; `Math.min(...values)` over the non-empty
batches the engine uses (the empty case, `+Infinity` in JavaScript, is
unreachable and modelled arbitrarily as 0). -/
def listMin : List ℚ → ℚ
  | [] => 0
  | x :: xs => xs.foldl min x

/-- Maximum of a batch of values; see `listMin`. -/
def listMax : List ℚ → ℚ
  | [] => 0
  | x :: xs => xs.foldl max x

/-- RoutePlanEngine.normalizeScore: min-max normalization of `value` within
the batch `values` (the caller supplies `routes.map(r => r[field])`); a flat
batch (`max == min`) scores 1, and `lowerIsBetter` inverts. -/
def normalizeScore (values : List ℚ) (value : ℚ) (lowerIsBetter : Bool) : ℚ :=
  let mn := listMin values
  let mx := listMax values
  if mx = mn then 1
  else
    let normalized := (value - mn) / (mx - mn)
    if lowerIsBetter then 1 - normalized else normalized

/-- RoutePlanEngine.calculatePreferenceScore: starts at 1, subtracts 0.2 when
avoiding tolls but carrying a toll cost, adds a tenth of the (already
computed) time score when `fastest` is requested, and clamps to [0, 1]. -/
def calculatePreferenceScore (route : Route) (preferences : List String) : ℚ :=
  let score : ℚ := 1
  let score :=
    if preferences.contains "avoid_toll" && decide (route.tolls > 0) then
      score - 2/10
    else score
  let score :=
    if preferences.contains "fastest" then
      score + route.scoreDetails.timeScore * (1/10)
    else score
  max 0 (min 1 score)

/-- RoutePlanEngine.calculateFinalScore: preference-dependent weight profile
(`fastest` checked before `shortest`), then the weighted dot product. -/
def calculateFinalScore (details : ScoreDetails) (preferences : List String) : ℚ :=
  let weights : ℚ × ℚ × ℚ × ℚ × ℚ :=
    if preferences.contains "fastest" then (4/10, 15/100, 25/100, 1/10, 1/10)
    else if preferences.contains "shortest" then (2/10, 4/10, 2/10, 1/10, 1/10)
    else (3/10, 2/10, 25/100, 1/10, 15/100)
  details.timeScore * weights.1 +
    details.distanceScore * weights.2.1 +
    details.trafficScore * weights.2.2.1 +
    details.weatherScore * weights.2.2.2.1 +
    details.preferenceScore * weights.2.2.2.2

/-- Candidate construction inside `planRoute`: the idx-th parsed path becomes
route `r(idx+1)` with zeroed scores and at most ten steps. -/
def parseRoute (idx : ℕ) (p : RawPath) : Route :=
  { id := "r" ++ toString (idx + 1)
    distanceMeters := (p.distance : ℚ)
    durationSeconds := (p.duration : ℚ)
    score := 0
    scoreDetails := ⟨0, 0, 0, 0, 0⟩
    trafficStatus := none
    weatherImpact := none
    steps := p.steps.take 10
    points := p.points
    tolls := (p.tolls : ℚ)
    trafficLights := (p.trafficLights : ℚ) }

/-- Mapping of `paths.slice(0, 3).map((p, idx) => ...)` with explicit index
threading. -/
def parseRoutesFrom (idx : ℕ) : List RawPath → List Route
  | [] => []
  | p :: ps => parseRoute idx p :: parseRoutesFrom (idx + 1) ps

/-- Scoring pass of `planRoute` for one route: traffic sub-score (live
evaluation or the fixed neutral 0.8), weather sub-score (`1 - impact` or the
neutral 1), batch-normalized time and distance sub-scores, then the
preference sub-score (which reads the just-computed time score) and the
composite score. -/
def scoreRoute (allRoutes : List Route) (preferences : List String)
    (weather : Option WeatherInfo) (trafficFetch : List Coord → TrafficResult)
    (considerTraffic : Bool) (r : Route) : Route :=
  let trafficPair : Option String × ℚ :=
    if considerTraffic && !r.points.isEmpty then
      let trafficEval := evaluateRouteTraffic r.points (trafficFetch r.points)
      (some trafficEval.avgStatus, 1 - trafficEval.congestionRate / 100)
    else (r.trafficStatus, (8/10 : ℚ))
  let weatherPair : Option String × ℚ :=
    match weather with
    | some w =>
      let weatherEval := evaluateWeatherImpact w
      (some weatherEval.level, 1 - weatherEval.impact)
    | none => (r.weatherImpact, (1 : ℚ))
  let timeScore :=
    normalizeScore (allRoutes.map (·.durationSeconds)) r.durationSeconds true
  let distanceScore :=
    normalizeScore (allRoutes.map (·.distanceMeters)) r.distanceMeters true
  let details1 : ScoreDetails :=
    { timeScore := timeScore, distanceScore := distanceScore
      trafficScore := trafficPair.2, weatherScore := weatherPair.2
      preferenceScore := 0 }
  let preferenceScore :=
    calculatePreferenceScore { r with scoreDetails := details1 } preferences
  let details : ScoreDetails := { details1 with preferenceScore := preferenceScore }
  { r with
    trafficStatus := trafficPair.1
    weatherImpact := weatherPair.1
    scoreDetails := details
    score := calculateFinalScore details preferences }

/-- Insertion step of the stable descending sort: a later element goes after
every earlier element of equal score. -/
def insertDesc (r : Route) : List Route → List Route
  | [] => [r]
  | x :: xs => if x.score ≤ r.score then r :: x :: xs else x :: insertDesc r xs

/-- Stable sort by composite score descending, modelling
`routes.sort((a, b) => b.score - a.score)` under the ECMAScript stable-sort
guarantee. -/
def sortByScoreDesc : List Route → List Route
  | [] => []
  | r :: rs => insertDesc r (sortByScoreDesc rs)

/-- JavaScript `Math.round`: half-up towards positive infinity. -/
def jsRound (x : ℚ) : ℤ := ⌊x + 1/2⌋

/-- JavaScript `Number.prototype.toFixed(1)`: one decimal digit, ties away
from zero resolved upward (the engine only formats non-negative distances). -/
def qToFixed1 (x : ℚ) : String :=
  let n : ℤ := ⌊x * 10 + 1/2⌋
  if n < 0 then "-" ++ toString ((-n) / 10) ++ "." ++ toString ((-n) % 10)
  else toString (n / 10) ++ "." ++ toString (n % 10)

/-- Truthiness of an optional string (JavaScript: `undefined` and the empty
string are falsy). -/
def optStrTruthy : Option String → Bool
  | some s => !(s = "")
  | none => false

/-- RoutePlanEngine.generateRouteSummary. -/
def generateRouteSummary (route : Option Route) (weather : Option WeatherInfo)
    (pois : List POIInfo) : String :=
  match route with
  | none => ""
  | some route =>
    let distKm := qToFixed1 (route.distanceMeters / 1000)
    let durMin := jsRound (route.durationSeconds / 60)
    let summary := "推荐路线全程" ++ distKm ++ "公里，预计" ++ toString durMin ++ "分钟到达。"
    let summary :=
      if optStrTruthy route.trafficStatus then
        summary ++ "当前路况" ++ route.trafficStatus.getD "" ++ "。"
      else summary
    let summary :=
      match weather with
      | some w => summary ++ "天气" ++ w.weather ++ "，气温" ++ w.temperature ++ "℃。"
      | none => summary
    let summary :=
      if optStrTruthy route.weatherImpact && !(route.weatherImpact.getD "" = "无影响") then
        summary ++ "天气" ++ route.weatherImpact.getD "" ++ "，请注意安全。"
      else summary
    let summary :=
      if pois.length > 0 then
        summary ++ "途中有" ++ toString pois.length ++ "个推荐地点。"
      else summary
    if !(route.tolls = 0) && route.tolls > 0 then
      summary ++ "预计过路费" ++ toString route.tolls ++ "元。"
    else summary

/-- RoutePlanEngine.getMockResult: the hard-coded fallback result with two
fabricated routes, returned when no key is configured, when the direction
response parses to no paths, or when planning throws. -/
def getMockResult (now : ℤ) : RoutePlanResult :=
  { recommendedRouteId := "r1"
    routes :=
      [ { id := "r1"
          distanceMeters := 12500
          durationSeconds := 1500
          score := 92/100
          scoreDetails := ⟨9/10, 85/100, 8/10, 1, 9/10⟩
          trafficStatus := some "畅通"
          weatherImpact := some "无影响"
          steps :=
            [ ⟨"从起点出发", 800, 120⟩
            , ⟨"上主干道行驶", 9000, 1020⟩
            , ⟨"驶入目的地区域", 2700, 360⟩ ]
          points :=
            [ ⟨116397/1000, 39908/1000⟩, ⟨11641/100, 3991/100⟩
            , ⟨11643/100, 3992/100⟩, ⟨11645/100, 3993/100⟩ ]
          tolls := 0
          trafficLights := 0 }
      , { id := "r2"
          distanceMeters := 11000
          durationSeconds := 1620
          score := 88/100
          scoreDetails := ⟨8/10, 9/10, 85/100, 1, 85/100⟩
          trafficStatus := some "畅通"
          weatherImpact := some "无影响"
          steps :=
            [ ⟨"从起点出发", 600, 90⟩
            , ⟨"途经次干道", 9400, 1200⟩
            , ⟨"驶入目的地区域", 1000, 330⟩ ]
          points :=
            [ ⟨116397/1000, 39908/1000⟩, ⟨1164/10, 39905/1000⟩
            , ⟨11642/100, 39907/1000⟩, ⟨11644/100, 39909/1000⟩ ]
          tolls := 0
          trafficLights := 0 } ]
    pois := none
    weather := none
    generatedAt := now
    aiSummary := some "推荐路线全程12.5公里，预计25分钟到达。当前路况良好。" }

/-- POI categories `planRoute` searches for along the winning route. -/
def poiCategories : List String :=
  ["coffee_shop", "gas_station", "charging_station", "restaurant"]

/-- Parsed candidate list of a planning call: `paths.slice(0, 3)` mapped
through `parseRoute`. -/
def candidateRoutes (paths : List RawPath) : List Route :=
  parseRoutesFrom 0 (paths.take 3)

/-- Scored candidate list of a planning call, in original source order. -/
def scoredRoutes (params : RoutePlanParams) (userPrefs : UserPreferences)
    (paths : List RawPath) (trafficFetch : List Coord → TrafficResult)
    (weatherRes : WeatherResult) : List Route :=
  let preferences := mergePreferences params userPrefs
  let routes := candidateRoutes paths
  let weather :=
    if params.considerWeather ≠ some false then
      if weatherRes.success then weatherRes.live else none
    else none
  routes.map
    (scoreRoute routes preferences weather trafficFetch
      (params.considerTraffic ≠ some false))

/-- RoutePlanEngine.planRoute with the network boundary made explicit:
`keyPresent` is the truthiness of `getAmapKey()`, `paths` the parsed
direction response, and the collaborator responses come in as values (both
collaborators catch their own failures, so the only exceptional exits are at
the HTTP/geocode boundary, which is below this model).  An empty parsed path
list, like a missing key, yields the fabricated `getMockResult`. -/
def planRoute (params : RoutePlanParams) (userPrefs : UserPreferences)
    (keyPresent : Bool) (paths : List RawPath)
    (trafficFetch : List Coord → TrafficResult) (weatherRes : WeatherResult)
    (poiRecs : List POIRecommendation) (now : ℤ) : RoutePlanResult :=
  if !keyPresent then getMockResult now
  else
    let preferences := mergePreferences params userPrefs
    let routes := candidateRoutes paths
    if routes.isEmpty then getMockResult now
    else
      let weather :=
        if params.considerWeather ≠ some false then
          if weatherRes.success then weatherRes.live else none
        else none
      let scored := scoredRoutes params userPrefs paths trafficFetch weatherRes
      let sorted := sortByScoreDesc scored
      let recommendedRouteId := (sorted.head?.map (·.id)).getD "r1"
      let pois :=
        if params.searchPOI ≠ some false && !sorted.isEmpty then
          let poiTypes := preferences.filter (poiCategories.contains ·)
          if poiTypes.length > 0 then ((poiRecs.map (·.pois)).flatten).take 10
          else []
        else []
      { recommendedRouteId := recommendedRouteId
        routes := sorted
        pois := if pois.length > 0 then some pois else none
        weather := weather
        generatedAt := now
        aiSummary := some (generateRouteSummary sorted.head? weather pois) }

/-! ## Traffic-event monitor (`TrafficEventService.ts`)

The proximity geometry runs on IEEE floats in the source; it is modelled
over ℝ with the two non-finite values the code can actually produce made
explicit: `Option ℝ` (with `none` for NaN) inside `pointToSegmentDistance`,
whose only NaN source is the `0/0` of a degenerate segment, and `FDist`
(adding `+Infinity`, the initial accumulator of the minimum-distance fold).
-/

/-- Severity classification of a traffic event. -/
inductive Impact
  | minor
  | moderate
  | severe
deriving DecidableEq

/-- Kind of a traffic event (`TrafficEventService.TrafficEvent['type']`). -/
inductive EventType
  | accident
  | construction
  | control
  | congestion
  | fog
  | rain
  | other
deriving DecidableEq

/-- A traffic event as tracked by `TrafficEventService`. -/
structure TrafficEvent where
  id : String
  type : EventType
  typeText : String
  description : String
  startTime : String
  location : Coord
  roadName : String
  impact : Impact
  delayMinutes : Option ℚ
deriving DecidableEq

/-- An emitted alert (`TrafficEventService.TrafficAlert`). -/
structure TrafficAlert where
  event : TrafficEvent
  affectsRoute : Bool
  alternativeAvailable : Bool
  suggestion : String
  timestamp : ℤ
deriving DecidableEq

/-- Key membership in the `lastEvents` map (JavaScript `Map.has`). -/
def mapHas (st : List (String × TrafficEvent)) (k : String) : Bool :=
  st.any (fun p => p.1 == k)

/-- Insertion into the `lastEvents` map (JavaScript `Map.set`): an existing
key keeps its position and gets the new value, a new key is appended. -/
def mapSet (st : List (String × TrafficEvent)) (k : String) (v : TrafficEvent) :
    List (String × TrafficEvent) :=
  if mapHas st k then st.map (fun p => if p.1 == k then (k, v) else p)
  else st ++ [(k, v)]

/-- Degrees to radians, as the inline `toRad` helper. -/
noncomputable def toRad (deg : ℚ) : ℝ := (deg : ℝ) * Real.pi / 180

open Classical in
/-- IEEE division as the projection formula meets it: the only zero
denominator the formula can produce comes with a zero numerator, so the
result of dividing by zero is NaN (`none`). -/
noncomputable def fdiv (x y : ℝ) : Option ℝ :=
  if y = 0 then none else some (x / y)

/-- TrafficEventService.pointToSegmentDistance: equirectangular projection of
`point` onto the segment, parameter clamped to [0, 1], residual offset scaled
back to meters.  A degenerate segment makes the parameter `0/0`, and the NaN
(modelled by `none`) propagates through `Math.min`, `Math.max` and every
later arithmetic step to the returned distance. -/
noncomputable def pointToSegmentDistance (point segStart segEnd : Coord) :
    Option ℝ :=
  let avgLat : ℚ := (segStart.lat + segEnd.lat) / 2
  let cosAvg : ℝ := Real.cos (toRad avgLat)
  let dx : ℝ := ((point.lng - segStart.lng : ℚ) : ℝ) * cosAvg
  let dy : ℝ := ((point.lat - segStart.lat : ℚ) : ℝ)
  let sx : ℝ := ((segEnd.lng - segStart.lng : ℚ) : ℝ) * cosAvg
  let sy : ℝ := ((segEnd.lat - segStart.lat : ℚ) : ℝ)
  let t : Option ℝ :=
    (fdiv (dx * sx + dy * sy) (sx * sx + sy * sy)).map (fun q => max 0 (min 1 q))
  t.map (fun tv =>
    let closestX : ℝ := ((segStart.lng : ℚ) : ℝ) + tv * ((segEnd.lng - segStart.lng : ℚ) : ℝ)
    let closestY : ℝ := ((segStart.lat : ℚ) : ℝ) + tv * ((segEnd.lat - segStart.lat : ℚ) : ℝ)
    let distLng : ℝ := (((point.lng : ℚ) : ℝ) - closestX) * cosAvg
    let distLat : ℝ := ((point.lat : ℚ) : ℝ) - closestY
    Real.sqrt (distLng * distLng + distLat * distLat) * 6371000 * Real.pi / 180)

/-- Value domain of the minimum-distance fold: a finite float, `+Infinity`
(the fold's initial value) or NaN. -/
inductive FDist
  | nan
  | inf
  | fin (x : ℝ)

/-- JavaScript `Math.min` on `FDist`: NaN absorbs, `+Infinity` is neutral. -/
noncomputable def fminD : FDist → FDist → FDist
  | .nan, _ => .nan
  | _, .nan => .nan
  | .inf, b => b
  | a, .inf => a
  | .fin x, .fin y => .fin (min x y)

/-- Lift of a `pointToSegmentDistance` value into the fold's domain. -/
def ofNaN : Option ℝ → FDist
  | none => .nan
  | some x => .fin x

/-- Comparison `d < c` as the `<` of JavaScript: false whenever `d` is NaN
or `+Infinity`. -/
def distLt (d : FDist) (c : ℝ) : Prop :=
  match d with
  | .fin x => x < c
  | _ => False

/-- TrafficEventService.calculateMinDistanceToRoute: minimum of the
point-to-segment distances over consecutive route points, starting from
`Infinity`. -/
noncomputable def minDistGo (point : Coord) : List Coord → FDist → FDist
  | a :: b :: rest, acc =>
    minDistGo point (b :: rest) (fminD acc (ofNaN (pointToSegmentDistance point a b)))
  | _, acc => acc

/-- Entry point of the minimum-distance computation. -/
noncomputable def calculateMinDistanceToRoute (route : List Coord) (point : Coord) :
    FDist :=
  minDistGo point route .inf

/-- TrafficEventService.checkEventAffectsRoute: false on an empty route,
otherwise the minimum distance is below 500 m (so also false whenever that
minimum is NaN or `Infinity`). -/
def checkEventAffectsRoute (route : List Coord) (event : TrafficEvent) : Prop :=
  route.length ≠ 0 ∧ distLt (calculateMinDistanceToRoute route event.location) 500

/-- JavaScript `x || d` for an optional number (0 is falsy). -/
def jsNumOr (o : Option ℚ) (d : ℚ) : ℚ :=
  match o with
  | some x => if x = 0 then d else x
  | none => d

/-- TrafficEventService.createAlert. -/
def createAlert (now : ℤ) (event : TrafficEvent) : TrafficAlert :=
  let suggestion :=
    match event.type with
    | .accident =>
      "前方" ++ event.roadName ++ "发生交通事故，预计延误" ++
        toString (jsNumOr event.delayMinutes 15) ++ "分钟，建议绕行"
    | .construction => "前方" ++ event.roadName ++ "道路施工，建议选择其他路线"
    | .congestion =>
      "前方" ++ event.roadName ++ event.typeText ++ "，预计延误" ++
        toString (jsNumOr event.delayMinutes 10) ++ "分钟"
    | .control => "前方" ++ event.roadName ++ "交通管制，请注意绕行"
    | _ => "前方路段有" ++ event.typeText ++ "，请注意安全"
  { event := event
    affectsRoute := true
    alternativeAvailable := true
    suggestion := suggestion
    timestamp := now }

open Classical in
/-- Per-event loop of `checkTrafficEvents`: a new id that affects the route
emits one alert; every event is then upserted into the map. -/
noncomputable def checkEventsLoop (now : ℤ) (route : List Coord) :
    List (String × TrafficEvent) → List TrafficEvent →
      List (String × TrafficEvent) × List TrafficAlert
  | st, [] => (st, [])
  | st, e :: rest =>
    let isNew := !(mapHas st e.id)
    let st1 := mapSet st e.id e
    let next := checkEventsLoop now route st1 rest
    (next.1, (if isNew = true ∧ checkEventAffectsRoute route e
              then [createAlert now e] else []) ++ next.2)

/-- Monitor state (`TrafficEventService`'s mutable fields). -/
structure MonState where
  isMonitoring : Bool
  currentRoute : List Coord
  lastEvents : List (String × TrafficEvent)

/-- Completion phase of one poll, after the snapshot `snap` has been fetched:
the per-event loop against the state as it is *now*, followed by expiry of
the ids absent from the snapshot.  A poll that was in flight when the state
changed runs exactly this on the changed state. -/
noncomputable def completePoll (now : ℤ) (s : MonState) (snap : List TrafficEvent) :
    MonState × List TrafficAlert :=
  let run := checkEventsLoop now s.currentRoute s.lastEvents snap
  let st2 := run.1.filter (fun p => snap.any (fun e => e.id == p.1))
  ({ s with lastEvents := st2 }, run.2)

/-- TrafficEventService.checkTrafficEvents as one atomic poll: the pre-fetch
guards (`currentRoute.length < 2`, missing key), then the completion phase on
the fetched snapshot. -/
noncomputable def checkTrafficEvents (keyOk : Bool) (now : ℤ) (s : MonState)
    (snap : List TrafficEvent) : MonState × List TrafficAlert :=
  if s.currentRoute.length < 2 then (s, [])
  else if !keyOk then (s, [])
  else completePoll now s snap

/-- TrafficEventService.stopMonitoring: stops the schedule, clears the route
and the active-event map. -/
def stopMonitoring (_s : MonState) : MonState :=
  { isMonitoring := false, currentRoute := [], lastEvents := [] }

/-- Observable actions of the monitor: a scheduled tick (gated on
`isMonitoring`, as in the `setInterval` callback), the completion of a poll
that is already in flight, `stopMonitoring`, `startMonitoring` (which keeps
`lastEvents` and performs an immediate poll), and `updateRoute` (which
reassigns `currentRoute` with no `isMonitoring` guard). -/
inductive MonAct
  | tick (snap : List TrafficEvent)
  | lateComplete (snap : List TrafficEvent)
  | stop
  | start (route : List Coord) (snap : List TrafficEvent)
  | updateRoute (route : List Coord)
deriving DecidableEq

/-- One action against the monitor state. -/
noncomputable def stepAct (keyOk : Bool) (now : ℤ) (s : MonState) :
    MonAct → MonState × List TrafficAlert
  | .tick snap => if s.isMonitoring then checkTrafficEvents keyOk now s snap else (s, [])
  | .lateComplete snap => completePoll now s snap
  | .stop => (stopMonitoring s, [])
  | .start route snap =>
    checkTrafficEvents keyOk now
      { s with currentRoute := route, isMonitoring := true } snap
  | .updateRoute route => ({ s with currentRoute := route }, [])

/-- A run of the monitor: the actions in order, with all emitted alerts
collected. -/
noncomputable def runActs (keyOk : Bool) (now : ℤ) (s : MonState) :
    List MonAct → MonState × List TrafficAlert
  | [] => (s, [])
  | a :: rest =>
    let this := stepAct keyOk now s a
    let next := runActs keyOk now this.1 rest
    (next.1, this.2 ++ next.2)

/-- A monitoring session over a fixed route: the per-poll alert batches of a
sequence of snapshot fetches. -/
noncomputable def pollSeq (keyOk : Bool) (now : ℤ) (s : MonState) :
    List (List TrafficEvent) → List (List TrafficAlert) × MonState
  | [] => ([], s)
  | snap :: rest =>
    let this := checkTrafficEvents keyOk now s snap
    let next := pollSeq keyOk now this.1 rest
    (this.2 :: next.1, next.2)

/-- Number of alerts in a batch that carry a given event id. -/
def countAlertsWithId (alerts : List TrafficAlert) (i : String) : ℕ :=
  (alerts.filter (fun a => a.event.id == i)).length

/-! ## Reroute decision (`RouteServiceAbility.ts`) -/

open Classical in
/-- JavaScript `Math.atan2`. -/
noncomputable def atan2 (y x : ℝ) : ℝ :=
  if 0 < x then Real.arctan (y / x)
  else if x < 0 then
    (if 0 ≤ y then Real.arctan (y / x) + Real.pi else Real.arctan (y / x) - Real.pi)
  else if 0 < y then Real.pi / 2
  else if y < 0 then -(Real.pi / 2)
  else 0

/-- RouteServiceAbility.calculateDistance: haversine great-circle distance
with Earth radius 6 371 000 m. -/
noncomputable def calculateDistance (p1 p2 : Coord) : ℝ :=
  let R : ℝ := 6371000
  let dLat : ℝ := ((p2.lat - p1.lat : ℚ) : ℝ) * Real.pi / 180
  let dLng : ℝ := ((p2.lng - p1.lng : ℚ) : ℝ) * Real.pi / 180
  let a : ℝ :=
    Real.sin (dLat / 2) * Real.sin (dLat / 2) +
      Real.cos (((p1.lat : ℚ) : ℝ) * Real.pi / 180) *
        Real.cos (((p2.lat : ℚ) : ℝ) * Real.pi / 180) *
        Real.sin (dLng / 2) * Real.sin (dLng / 2)
  R * 2 * atan2 (Real.sqrt a) (Real.sqrt (1 - a))

/-- Sum of the leg distances over consecutive route points. -/
noncomputable def totalRouteDistance : List Coord → ℝ
  | p :: q :: rest => calculateDistance p q + totalRouteDistance (q :: rest)
  | _ => 0

open Classical in
/-- RouteServiceAbility.estimateDuration: total distance at an assumed
40 km/h, 0 for fewer than two points. -/
noncomputable def estimateDuration (points : List Coord) : ℝ :=
  if points.length < 2 then 0
  else totalRouteDistance points / 1000 / 40 * 3600

/-- Old-route duration inside `suggestReroute`:
`currentRoute.length > 0 ? estimateDuration(currentRoute) : 0`. -/
noncomputable def oldDurationOf (currentRoute : List Coord) : ℝ :=
  if currentRoute.length > 0 then estimateDuration currentRoute else 0

/-- Emission condition of `suggestReroute` once a fresh plan with at least
one route is in hand: `oldDuration === 0 || newDuration < oldDuration * 0.8`. -/
noncomputable def suggestRerouteEmits (currentRoute : List Coord)
    (newDuration : ℝ) : Prop :=
  oldDurationOf currentRoute = 0 ∨
    newDuration < oldDurationOf currentRoute * (8 / 10)

/-! ## Helper lemmas -/

theorem foldl_min_const (xs : List ℚ) (a : ℚ) (h : ∀ v ∈ xs, v = a) :
    xs.foldl min a = a := by
  induction xs with
  | nil => rfl
  | cons x xs ih =>
    have hx : x = a := h x (List.mem_cons_self x xs)
    simp only [List.foldl_cons, hx, min_self]
    exact ih fun v hv => h v (List.mem_cons_of_mem x hv)

theorem foldl_max_const (xs : List ℚ) (a : ℚ) (h : ∀ v ∈ xs, v = a) :
    xs.foldl max a = a := by
  induction xs with
  | nil => rfl
  | cons x xs ih =>
    have hx : x = a := h x (List.mem_cons_self x xs)
    simp only [List.foldl_cons, hx, max_self]
    exact ih fun v hv => h v (List.mem_cons_of_mem x hv)

/-! ## C8 -/

/-- C8: `normalizeScore` over a batch in which all values are equal returns 1
for every target, under both `lowerIsBetter` settings (the batch is non-empty,
as at every call site). -/
theorem normalize_flat_batch_one (values : List ℚ) (c target : ℚ)
    (lowerIsBetter : Bool) (hne : values ≠ []) (hall : ∀ v ∈ values, v = c) :
    normalizeScore values target lowerIsBetter = 1 := by
  obtain ⟨x, xs, rfl⟩ := List.exists_cons_of_ne_nil hne
  have hx : x = c := hall x (List.mem_cons_self x xs)
  have htail : ∀ v ∈ xs, v = c := fun v hv => hall v (List.mem_cons_of_mem x hv)
  have hmin : listMin (x :: xs) = c := by
    simpa [listMin, hx] using foldl_min_const xs c htail
  have hmax : listMax (x :: xs) = c := by
    simpa [listMax, hx] using foldl_max_const xs c htail
  simp [normalizeScore, hmin, hmax]

/-- Witness for C8 at the concrete flat batch `[3, 3, 3]`, both settings. -/
theorem normalize_flat_batch_one_witness :
    normalizeScore [3, 3, 3] 3 true = 1 ∧ normalizeScore [3, 3, 3] 3 false = 1 :=
  ⟨normalize_flat_batch_one [3, 3, 3] 3 3 true (by decide) (by decide),
   normalize_flat_batch_one [3, 3, 3] 3 3 false (by decide) (by decide)⟩

/-! ## C9 -/

/-- Modelled from the spec's wording of `preferenceScore`: the clamp to
[0, 1] of 1, minus 0.2 when `avoid_toll` is requested and the toll cost is
nonzero, plus 0.1 times the route's already-computed time score when
`fastest` is requested.  Stated for comparison with
`calculatePreferenceScore`. -/
def specPreferenceScore (route : Route) (preferences : List String) : ℚ :=
  max 0 (min 1
    (1 - (if preferences.contains "avoid_toll" = true ∧ route.tolls ≠ 0 then 2/10 else 0)
       + (if preferences.contains "fastest" = true
          then (1/10) * route.scoreDetails.timeScore else 0)))

/-- C9: for a route with the non-negative toll cost every parsed route has,
`calculatePreferenceScore` equals the spec's clamped formula, and its output
lies in [0, 1] whatever the (possibly extreme) time score. -/
theorem preferenceScore_clamped_formula (route : Route) (preferences : List String)
    (htolls : 0 ≤ route.tolls) :
    calculatePreferenceScore route preferences = specPreferenceScore route preferences ∧
    0 ≤ calculatePreferenceScore route preferences ∧
    calculatePreferenceScore route preferences ≤ 1 := by
  refine ⟨?_, ?_, ?_⟩
  · by_cases htz : route.tolls = 0
    · by_cases hat : "avoid_toll" ∈ preferences <;>
        by_cases hf : "fastest" ∈ preferences <;>
        simp [calculatePreferenceScore, specPreferenceScore, hat, hf, htz] <;> ring_nf
    · have hpos : 0 < route.tolls := lt_of_le_of_ne htolls (Ne.symm htz)
      by_cases hat : "avoid_toll" ∈ preferences <;>
        by_cases hf : "fastest" ∈ preferences <;>
        simp [calculatePreferenceScore, specPreferenceScore, hat, hf, htz, hpos] <;> ring_nf
  · exact le_max_left 0 _
  · exact max_le (by norm_num) (min_le_left 1 _)

/-- A concrete route used by several witnesses: toll cost 5 and an extreme
time score. -/
def sampleRoute : Route :=
  { id := "r1", distanceMeters := 12500, durationSeconds := 1500, score := 0
    scoreDetails := ⟨1000, 0, 0, 0, 0⟩, trafficStatus := none, weatherImpact := none
    steps := [], points := [], tolls := 5, trafficLights := 0 }

/-- Witness for C9 at a concrete route with nonzero tolls, an extreme time
score, and both relevant preferences requested. -/
theorem preferenceScore_clamped_formula_witness :
    calculatePreferenceScore sampleRoute ["avoid_toll", "fastest"] =
        specPreferenceScore sampleRoute ["avoid_toll", "fastest"] ∧
      0 ≤ calculatePreferenceScore sampleRoute ["avoid_toll", "fastest"] ∧
      calculatePreferenceScore sampleRoute ["avoid_toll", "fastest"] ≤ 1 :=
  preferenceScore_clamped_formula sampleRoute ["avoid_toll", "fastest"] (by decide)

/-! ## C1 -/

/-- C1 (amended): a planning call whose raw candidate path list is empty does
not fail with a "no candidates" condition; whatever the parameters and
collaborator responses, it returns the fabricated `getMockResult`. -/
theorem planRoute_empty_candidates_mock (params : RoutePlanParams)
    (userPrefs : UserPreferences) (keyPresent : Bool)
    (trafficFetch : List Coord → TrafficResult) (weatherRes : WeatherResult)
    (poiRecs : List POIRecommendation) (now : ℤ) :
    planRoute params userPrefs keyPresent [] trafficFetch weatherRes poiRecs now =
      getMockResult now := by
  cases keyPresent <;> simp [planRoute, candidateRoutes, parseRoutesFrom]

/-- Default planning parameters for concrete calls. -/
def sampleParams : RoutePlanParams := ⟨[], none, none, none⟩

/-- Default user preferences for concrete calls. -/
def samplePrefs : UserPreferences := ⟨false, false⟩

/-- A traffic collaborator that always fails. -/
def failTraffic : List Coord → TrafficResult := fun _ => ⟨false, none⟩

/-- A weather collaborator response that reports failure. -/
def failWeather : WeatherResult := ⟨false, none⟩

/-- The concrete planning call with an empty candidate list. -/
def emptyPathsCall : RoutePlanResult :=
  planRoute sampleParams samplePrefs true [] failTraffic failWeather [] 0

/-- C1 counterexample: at a concrete empty-candidate call the planner does
not fail and does not return an empty result — it fabricates the mock result
with two invented routes, a recommendation, and non-empty geometry. -/
theorem planRoute_emptyPaths_fabricates :
    emptyPathsCall = getMockResult 0 ∧
      emptyPathsCall.routes.length = 2 ∧
      emptyPathsCall.recommendedRouteId = "r1" ∧
      emptyPathsCall.routes.map (fun r => r.points.length) = [4, 4] := by
  refine ⟨rfl, ?_, ?_, ?_⟩ <;> rfl

/-! ## C10 -/

/-- C10: on a degenerate segment (`segStart = segEnd`) the projection divides
by the zero squared segment length, so `pointToSegmentDistance` returns NaN
(`none`); the `distance < 500` comparison on the NaN-absorbed minimum is
false, so a route made of such a segment never marks any event as affecting
it. -/
theorem degenerate_segment_nan_never_affects (p s : Coord) (e : TrafficEvent) :
    pointToSegmentDistance p s s = none ∧
      (checkEventAffectsRoute [s, s] e ↔ False) := by
  have hnan : ∀ q : Coord, pointToSegmentDistance q s s = none := by
    intro q
    simp [pointToSegmentDistance, fdiv]
  refine ⟨hnan p, ?_⟩
  simp only [checkEventAffectsRoute, calculateMinDistanceToRoute, minDistGo,
    hnan e.location, ofNaN, fminD, distLt, iff_false]
  rintro ⟨-, h⟩
  exact h

/-! ## C2 -/

/-- A one-point current route: "active" (non-empty) but with a zero duration
estimate. -/
def singlePointRoute : List Coord := [⟨0, 0⟩]

/-- C2 counterexample: with the active one-point current route and a fresh
best route of 1000 s, the code emits a reroute suggestion (its
`oldDuration === 0` escape fires), while the claimed criterion
`newDuration < 0.8 * oldDuration` is false. -/
theorem rerouteEmit_zero_old_duration :
    suggestRerouteEmits singlePointRoute 1000 ∧
      ((1000 : ℝ) < (8 / 10) * oldDurationOf singlePointRoute ↔ False) := by
  have hold : oldDurationOf singlePointRoute = 0 := by
    simp [oldDurationOf, singlePointRoute, estimateDuration]
  constructor
  · exact Or.inl hold
  · rw [hold]
    norm_num

/-- C2 (amended): whenever the current route's estimated duration is
positive, the reroute suggestion is emitted exactly when
`newDuration < 0.8 * oldDuration`; when the estimate is zero (fewer than two
points, or a degenerate polyline) the code emits unconditionally instead. -/
theorem rerouteEmit_iff_of_pos_oldDuration (currentRoute : List Coord)
    (newDuration : ℝ) (hpos : 0 < oldDurationOf currentRoute) :
    suggestRerouteEmits currentRoute newDuration ↔
      newDuration < (8 / 10) * oldDurationOf currentRoute := by
  unfold suggestRerouteEmits
  rw [mul_comm]
  exact or_iff_right (ne_of_gt hpos)

/-- A two-point route whose single leg has positive haversine length. -/
def positiveLegRoute : List Coord := [⟨0, 0⟩, ⟨0, 180⟩]

/-- The single leg of `positiveLegRoute` evaluates to a positive great-circle
distance: the haversine parameter is 1, so the distance is
`6371000 * 2 * (pi / 2)`. -/
theorem positiveLegRoute_oldDuration_pos : 0 < oldDurationOf positiveLegRoute := by
  have hlat : ((180 - 0 : ℚ) : ℝ) * Real.pi / 180 / 2 = Real.pi / 2 := by
    push_cast
    ring
  have hlng : ((0 - 0 : ℚ) : ℝ) * Real.pi / 180 / 2 = 0 := by
    push_cast
    ring
  have hdist : calculateDistance ⟨0, 0⟩ ⟨0, 180⟩ = 6371000 * 2 * (Real.pi / 2) := by
    simp only [calculateDistance, hlat, hlng]
    rw [Real.sin_pi_div_two]
    norm_num [atan2, Real.pi_pos, Real.pi_pos.le]
  have hpos : 0 < calculateDistance ⟨0, 0⟩ ⟨0, 180⟩ := by
    rw [hdist]
    positivity
  have htotal : totalRouteDistance positiveLegRoute = calculateDistance ⟨0, 0⟩ ⟨0, 180⟩ := by
    simp [positiveLegRoute, totalRouteDistance]
  have hest : oldDurationOf positiveLegRoute =
      totalRouteDistance positiveLegRoute / 1000 / 40 * 3600 := by
    simp [oldDurationOf, estimateDuration, positiveLegRoute]
  rw [hest, htotal]
  positivity

/-- Witness for C2's amended theorem at the concrete positive-duration route
and a zero new duration. -/
theorem rerouteEmit_iff_witness :
    0 < oldDurationOf positiveLegRoute ∧
      (suggestRerouteEmits positiveLegRoute 0 ↔
        (0 : ℝ) < (8 / 10) * oldDurationOf positiveLegRoute) :=
  ⟨positiveLegRoute_oldDuration_pos,
   rerouteEmit_iff_of_pos_oldDuration positiveLegRoute 0
     positiveLegRoute_oldDuration_pos⟩

/-! ## Sort and identifier lemmas for the planner -/

theorem insertDesc_perm (r : Route) (l : List Route) :
    (insertDesc r l).Perm (r :: l) := by
  induction l with
  | nil => exact List.Perm.refl _
  | cons x xs ih =>
    by_cases h : x.score ≤ r.score
    · simp [insertDesc, h]
    · simp only [insertDesc, h, if_false]
      exact ((ih.cons x).trans (List.Perm.swap r x xs))

theorem sortByScoreDesc_perm (l : List Route) : (sortByScoreDesc l).Perm l := by
  induction l with
  | nil => exact List.Perm.refl _
  | cons x xs ih => exact (insertDesc_perm x (sortByScoreDesc xs)).trans (ih.cons x)

theorem sortByScoreDesc_head_first_max (l : List Route) (hne : l ≠ []) :
    ∃ l₁ r l₂, l = l₁ ++ r :: l₂ ∧
      (sortByScoreDesc l).head? = some r ∧
      (∀ x ∈ l, x.score ≤ r.score) ∧
      (∀ x ∈ l₁, x.score < r.score) := by
  induction l with
  | nil => exact absurd rfl hne
  | cons a l ih =>
    cases l with
    | nil =>
      refine ⟨[], a, [], rfl, rfl, ?_, by simp⟩
      intro x hx
      rcases List.mem_singleton.1 hx with rfl
      exact le_refl _
    | cons b t =>
      obtain ⟨l₁, r, l₂, hsplit, hhead, hmax, hpre⟩ := ih (by simp)
      obtain ⟨t2, hst⟩ : ∃ t2, sortByScoreDesc (b :: t) = r :: t2 := by
        cases hs : sortByScoreDesc (b :: t) with
        | nil => rw [hs] at hhead; simp at hhead
        | cons x xs =>
          rw [hs] at hhead
          simp only [List.head?_cons, Option.some.injEq] at hhead
          exact ⟨xs, by rw [hhead]⟩
      by_cases hcmp : r.score ≤ a.score
      · refine ⟨[], a, b :: t, rfl, ?_, ?_, by simp⟩
        · show (insertDesc a (sortByScoreDesc (b :: t))).head? = some a
          rw [hst]
          simp [insertDesc, hcmp]
        · intro x hx
          rcases List.mem_cons.1 hx with rfl | hx
          · exact le_refl _
          · exact le_trans (hmax x hx) hcmp
      · push_neg at hcmp
        refine ⟨a :: l₁, r, l₂, by rw [hsplit]; rfl, ?_, ?_, ?_⟩
        · show (insertDesc a (sortByScoreDesc (b :: t))).head? = some r
          rw [hst]
          simp [insertDesc, not_le.2 hcmp]
        · intro x hx
          rcases List.mem_cons.1 hx with rfl | hx
          · exact hcmp.le
          · exact hmax x hx
        · intro x hx
          rcases List.mem_cons.1 hx with rfl | hx
          · exact hcmp
          · exact hpre x hx

theorem filter_eq_id_length_one {l : List Route} (hnodup : (l.map (·.id)).Nodup)
    {r : Route} (hr : r ∈ l) :
    (l.filter (fun y => y.id == r.id)).length = 1 := by
  induction l with
  | nil => cases hr
  | cons a t ih =>
    simp only [List.map_cons, List.nodup_cons, List.mem_map] at hnodup
    by_cases hid : a.id = r.id
    · have hfilter : t.filter (fun y => y.id == r.id) = [] := by
        refine List.filter_eq_nil_iff.2 fun y hy => ?_
        simp only [beq_iff_eq]
        intro hyr
        exact hnodup.1 ⟨y, hy, by rw [hyr, hid]⟩
      simp [List.filter_cons, hid, hfilter]
    · have hrt : r ∈ t := by
        rcases List.mem_cons.1 hr with rfl | h
        · exact absurd rfl hid
        · exact h
      have : (a.id == r.id) = false := beq_eq_false_iff_ne.2 hid
      simp only [List.filter_cons, this, if_false]
      exact ih hnodup.2 hrt

theorem candidateRoutes_ids_nodup (paths : List RawPath) :
    ((candidateRoutes paths).map (·.id)).Nodup := by
  rcases paths with _ | ⟨a, _ | ⟨b, _ | ⟨c, rest⟩⟩⟩ <;>
    simp [candidateRoutes, parseRoutesFrom, parseRoute] <;> decide

theorem scoreRoute_id (allRoutes : List Route) (preferences : List String)
    (weather : Option WeatherInfo) (trafficFetch : List Coord → TrafficResult)
    (considerTraffic : Bool) (r : Route) :
    (scoreRoute allRoutes preferences weather trafficFetch considerTraffic r).id = r.id :=
  rfl

theorem scoreRoute_points (allRoutes : List Route) (preferences : List String)
    (weather : Option WeatherInfo) (trafficFetch : List Coord → TrafficResult)
    (considerTraffic : Bool) (r : Route) :
    (scoreRoute allRoutes preferences weather trafficFetch considerTraffic r).points =
      r.points :=
  rfl

theorem scoredRoutes_ids (params : RoutePlanParams) (userPrefs : UserPreferences)
    (paths : List RawPath) (trafficFetch : List Coord → TrafficResult)
    (weatherRes : WeatherResult) :
    (scoredRoutes params userPrefs paths trafficFetch weatherRes).map (·.id) =
      (candidateRoutes paths).map (·.id) := by
  simp only [scoredRoutes, List.map_map]
  exact List.map_congr_left fun r _ => rfl

theorem candidateRoutes_ne_nil (paths : List RawPath) (hne : paths ≠ []) :
    candidateRoutes paths ≠ [] := by
  rcases paths with _ | ⟨a, t⟩
  · exact absurd rfl hne
  · simp [candidateRoutes, parseRoutesFrom]

theorem scoredRoutes_ne_nil (params : RoutePlanParams) (userPrefs : UserPreferences)
    (paths : List RawPath) (trafficFetch : List Coord → TrafficResult)
    (weatherRes : WeatherResult) (hne : paths ≠ []) :
    scoredRoutes params userPrefs paths trafficFetch weatherRes ≠ [] := by
  simp only [scoredRoutes, ne_eq, List.map_eq_nil_iff]
  exact candidateRoutes_ne_nil paths hne

theorem planRoute_routes_sorted (params : RoutePlanParams)
    (userPrefs : UserPreferences) (paths : List RawPath)
    (trafficFetch : List Coord → TrafficResult) (weatherRes : WeatherResult)
    (poiRecs : List POIRecommendation) (now : ℤ) (hne : paths ≠ []) :
    (planRoute params userPrefs true paths trafficFetch weatherRes poiRecs now).routes =
      sortByScoreDesc (scoredRoutes params userPrefs paths trafficFetch weatherRes) := by
  have hempty : (candidateRoutes paths).isEmpty = false :=
    List.isEmpty_eq_false.2 (candidateRoutes_ne_nil paths hne)
  simp [planRoute, hempty]

/-! ## C7 -/

/-- C7: every planning call with at least one candidate designates exactly
one recommended route: the result is the stable descending sort of the scored
batch, its head `r` is the recommendation, `r` carries the maximal composite
score, every candidate strictly before `r` in original order scores strictly
below it (ties go to the earliest), and exactly one route of the result bears
the recommended id. -/
theorem planner_recommends_first_max (params : RoutePlanParams)
    (userPrefs : UserPreferences) (paths : List RawPath)
    (trafficFetch : List Coord → TrafficResult) (weatherRes : WeatherResult)
    (poiRecs : List POIRecommendation) (now : ℤ) (hne : paths ≠ []) :
    ∃ l₁ r l₂,
      scoredRoutes params userPrefs paths trafficFetch weatherRes = l₁ ++ r :: l₂ ∧
      (planRoute params userPrefs true paths trafficFetch weatherRes poiRecs now).routes =
        sortByScoreDesc (scoredRoutes params userPrefs paths trafficFetch weatherRes) ∧
      (planRoute params userPrefs true paths trafficFetch weatherRes poiRecs now).routes.head? =
        some r ∧
      (planRoute params userPrefs true paths trafficFetch weatherRes poiRecs now).recommendedRouteId =
        r.id ∧
      (∀ x ∈ scoredRoutes params userPrefs paths trafficFetch weatherRes, x.score ≤ r.score) ∧
      (∀ x ∈ l₁, x.score < r.score) ∧
      ((planRoute params userPrefs true paths trafficFetch weatherRes poiRecs now).routes.filter
          (fun y => y.id == r.id)).length = 1 := by
  have hscne := scoredRoutes_ne_nil params userPrefs paths trafficFetch weatherRes hne
  obtain ⟨l₁, r, l₂, hsplit, hhead, hmax, hpre⟩ :=
    sortByScoreDesc_head_first_max _ hscne
  have hroutes := planRoute_routes_sorted params userPrefs paths trafficFetch weatherRes
    poiRecs now hne
  have hrhead : (planRoute params userPrefs true paths trafficFetch weatherRes poiRecs
      now).routes.head? = some r := by rw [hroutes]; exact hhead
  have hmem : r ∈ sortByScoreDesc (scoredRoutes params userPrefs paths trafficFetch weatherRes) := by
    cases hs : sortByScoreDesc (scoredRoutes params userPrefs paths trafficFetch weatherRes) with
    | nil => rw [hs] at hhead; simp at hhead
    | cons x xs =>
      rw [hs] at hhead
      simp only [List.head?_cons, Option.some.injEq] at hhead
      exact hhead ▸ List.mem_cons_self x xs
  have hnodup : ((sortByScoreDesc (scoredRoutes params userPrefs paths trafficFetch
      weatherRes)).map (·.id)).Nodup := by
    refine ((sortByScoreDesc_perm _).map (·.id)).nodup_iff.2 ?_
    rw [scoredRoutes_ids]
    exact candidateRoutes_ids_nodup paths
  have hempty : (candidateRoutes paths).isEmpty = false :=
    List.isEmpty_eq_false.2 (candidateRoutes_ne_nil paths hne)
  have hrec : (planRoute params userPrefs true paths trafficFetch weatherRes poiRecs
      now).recommendedRouteId = r.id := by
    simp only [planRoute, Bool.not_true, Bool.false_eq_true, if_false, hempty,
      Bool.true_eq_false]
    rw [hhead]
    rfl
  refine ⟨l₁, r, l₂, hsplit, hroutes, hrhead, hrec, hmax, hpre, ?_⟩
  rw [hroutes]
  exact filter_eq_id_length_one hnodup hmem

/-- Two concrete candidate paths for witnesses. -/
def samplePaths : List RawPath :=
  [⟨12500, 1500, [], [], 0, 0⟩, ⟨11000, 1620, [], [], 0, 0⟩]

/-- Witness for C7 at a concrete two-candidate planning call with failing
collaborators. -/
theorem planner_recommends_first_max_witness :
    ∃ l₁ r l₂,
      scoredRoutes sampleParams samplePrefs samplePaths failTraffic failWeather =
        l₁ ++ r :: l₂ ∧
      (planRoute sampleParams samplePrefs true samplePaths failTraffic failWeather [] 0).routes =
        sortByScoreDesc (scoredRoutes sampleParams samplePrefs samplePaths failTraffic failWeather) ∧
      (planRoute sampleParams samplePrefs true samplePaths failTraffic failWeather [] 0).routes.head? =
        some r ∧
      (planRoute sampleParams samplePrefs true samplePaths failTraffic failWeather [] 0).recommendedRouteId =
        r.id ∧
      (∀ x ∈ scoredRoutes sampleParams samplePrefs samplePaths failTraffic failWeather,
        x.score ≤ r.score) ∧
      (∀ x ∈ l₁, x.score < r.score) ∧
      ((planRoute sampleParams samplePrefs true samplePaths failTraffic failWeather [] 0).routes.filter
          (fun y => y.id == r.id)).length = 1 :=
  planner_recommends_first_max sampleParams samplePrefs samplePaths failTraffic
    failWeather [] 0 (by decide)

/-! ## C6 -/

theorem evaluateRouteTraffic_failure_rate (points : List Coord) :
    (evaluateRouteTraffic points ⟨false, none⟩).congestionRate = 0 := by
  by_cases h : points.length < 2 <;> simp [evaluateRouteTraffic, h]

theorem scoreRoute_weatherScore_none (allRoutes : List Route)
    (preferences : List String) (trafficFetch : List Coord → TrafficResult)
    (considerTraffic : Bool) (r : Route) :
    (scoreRoute allRoutes preferences none trafficFetch considerTraffic
        r).scoreDetails.weatherScore = 1 :=
  rfl

theorem scoreRoute_trafficScore_failure (allRoutes : List Route)
    (preferences : List String) (weather : Option WeatherInfo)
    (trafficFetch : List Coord → TrafficResult) (considerTraffic : Bool)
    (r : Route) (htf : trafficFetch r.points = ⟨false, none⟩) :
    (scoreRoute allRoutes preferences weather trafficFetch considerTraffic
        r).scoreDetails.trafficScore =
      (if considerTraffic && !r.points.isEmpty then 1 else 8/10) := by
  by_cases hc : (considerTraffic && !r.points.isEmpty) = true
  · simp [scoreRoute, hc, htf, evaluateRouteTraffic_failure_rate]
  · simp [scoreRoute, hc]

/-- C6 (amended): a planning call with at least one candidate survives
collaborator failure — the result is still the ranked sort of the scored
batch with one route per candidate — and the neutral fallbacks are: weather
sub-score 1 whenever the weather collaborator fails, and traffic sub-score
`1 - 0/100 = 1` (not the 0.8 the spec names) when the traffic collaborator
fails while traffic consideration is on for a route with geometry; 0.8 is the
fallback only when the evaluation is skipped (consideration disabled or no
geometry). -/
theorem collaborator_failure_neutral_defaults (params : RoutePlanParams)
    (userPrefs : UserPreferences) (paths : List RawPath)
    (trafficFetch : List Coord → TrafficResult) (weatherRes : WeatherResult)
    (poiRecs : List POIRecommendation) (now : ℤ) (hne : paths ≠ [])
    (htf : ∀ points, trafficFetch points = ⟨false, none⟩)
    (hwf : weatherRes.success = false) :
    (planRoute params userPrefs true paths trafficFetch weatherRes poiRecs now).routes =
        sortByScoreDesc (scoredRoutes params userPrefs paths trafficFetch weatherRes) ∧
      (planRoute params userPrefs true paths trafficFetch weatherRes poiRecs now).routes.length =
        (candidateRoutes paths).length ∧
      ((planRoute params userPrefs true paths trafficFetch weatherRes poiRecs now).routes = [] ↔
        False) ∧
      ∀ r ∈ (planRoute params userPrefs true paths trafficFetch weatherRes poiRecs now).routes,
        r.scoreDetails.weatherScore = 1 ∧
          r.scoreDetails.trafficScore =
            (if (params.considerTraffic ≠ some false) && !r.points.isEmpty then 1 else 8/10) := by
  have hroutes := planRoute_routes_sorted params userPrefs paths trafficFetch weatherRes
    poiRecs now hne
  have hweather :
      (if params.considerWeather ≠ some false then
        (if weatherRes.success then weatherRes.live else none) else none) = none := by
    rw [hwf]
    simp
  have hscored : scoredRoutes params userPrefs paths trafficFetch weatherRes =
      (candidateRoutes paths).map
        (scoreRoute (candidateRoutes paths) (mergePreferences params userPrefs) none
          trafficFetch (params.considerTraffic ≠ some false)) := by
    simp only [scoredRoutes]
    rw [hweather]
  refine ⟨hroutes, ?_, ?_, ?_⟩
  · rw [hroutes, (sortByScoreDesc_perm _).length_eq, hscored, List.length_map]
  · rw [hroutes]
    simp only [iff_false]
    intro hnil
    have hlen := (sortByScoreDesc_perm
      (scoredRoutes params userPrefs paths trafficFetch weatherRes)).length_eq
    rw [hnil] at hlen
    exact scoredRoutes_ne_nil params userPrefs paths trafficFetch weatherRes hne
      (List.length_eq_zero.1 hlen.symm)
  · intro r hr
    rw [hroutes] at hr
    have hr2 : r ∈ scoredRoutes params userPrefs paths trafficFetch weatherRes :=
      (sortByScoreDesc_perm _).mem_iff.1 hr
    rw [hscored] at hr2
    obtain ⟨r0, hr0, rfl⟩ := List.mem_map.1 hr2
    refine ⟨scoreRoute_weatherScore_none _ _ _ _ _, ?_⟩
    rw [scoreRoute_trafficScore_failure _ _ _ _ _ _ (htf r0.points),
      scoreRoute_points]

/-- One candidate path with real geometry, for the C6 counterexample. -/
def c6Paths : List RawPath := [⟨1000, 600, [], [⟨0, 0⟩, ⟨1, 0⟩], 0, 0⟩]

/-- The concrete planning call whose traffic and weather collaborators fail
while traffic consideration is enabled. -/
def c6Call : RoutePlanResult :=
  planRoute sampleParams samplePrefs true c6Paths failTraffic failWeather [] 0

/-- C6 counterexample: at this call the traffic collaborator fails, yet the
affected sub-score is 1 (congestion rate 0), not the claimed neutral default
0.8. -/
theorem traffic_failure_score_one_not_08 :
    c6Call.routes.map (fun r => r.scoreDetails.trafficScore) = [1] ∧
      ((8/10 : ℚ) ∈ c6Call.routes.map (fun r => r.scoreDetails.trafficScore) ↔ False) := by
  have h1 : c6Call.routes =
      [scoreRoute (candidateRoutes c6Paths) (mergePreferences sampleParams samplePrefs)
        none failTraffic true (parseRoute 0 ⟨1000, 600, [], [⟨0, 0⟩, ⟨1, 0⟩], 0, 0⟩)] := rfl
  have hmap : c6Call.routes.map (fun r => r.scoreDetails.trafficScore) = [1] := by
    rw [h1]
    simp only [List.map_cons, List.map_nil]
    rw [scoreRoute_trafficScore_failure _ _ _ _ _ _ rfl]
    norm_num [parseRoute]
  refine ⟨hmap, ?_⟩
  rw [hmap]
  simp only [List.mem_singleton, iff_false]
  norm_num

/-- Witness for C6's amended theorem at the same concrete call. -/
theorem collaborator_failure_witness :
    (planRoute sampleParams samplePrefs true c6Paths failTraffic failWeather [] 0).routes =
        sortByScoreDesc (scoredRoutes sampleParams samplePrefs c6Paths failTraffic failWeather) ∧
      (planRoute sampleParams samplePrefs true c6Paths failTraffic failWeather [] 0).routes.length =
        (candidateRoutes c6Paths).length ∧
      ((planRoute sampleParams samplePrefs true c6Paths failTraffic failWeather [] 0).routes = [] ↔
        False) ∧
      ∀ r ∈ (planRoute sampleParams samplePrefs true c6Paths failTraffic failWeather [] 0).routes,
        r.scoreDetails.weatherScore = 1 ∧
          r.scoreDetails.trafficScore =
            (if (sampleParams.considerTraffic ≠ some false) && !r.points.isEmpty then 1 else 8/10) :=
  collaborator_failure_neutral_defaults sampleParams samplePrefs c6Paths failTraffic
    failWeather [] 0 (by decide) (fun _ => rfl) rfl

/-! ## Monitor lemmas -/

theorem checkEventAffectsRoute_nil (e : TrafficEvent) :
    checkEventAffectsRoute [] e ↔ False := by
  simp [checkEventAffectsRoute]

theorem checkEventsLoop_nil_route (now : ℤ) (st : List (String × TrafficEvent))
    (es : List TrafficEvent) :
    (checkEventsLoop now [] st es).2 = [] := by
  induction es generalizing st with
  | nil => rfl
  | cons e rest ih =>
    simp only [checkEventsLoop]
    rw [if_neg fun h => ((checkEventAffectsRoute_nil e).1 h.2)]
    simpa using ih (mapSet st e.id e)

theorem mapHas_map_replace (st : List (String × TrafficEvent)) (k : String)
    (v : TrafficEvent) (i : String) :
    mapHas (st.map (fun p => if p.1 == k then (k, v) else p)) i = mapHas st i := by
  have hfun : ((fun p : String × TrafficEvent => p.1 == i) ∘
      (fun p => if p.1 == k then (k, v) else p)) = fun p : String × TrafficEvent => p.1 == i := by
    funext q
    by_cases hq : q.1 == k
    · have hq2 : q.1 = k := by simpa using hq
      simp [Function.comp, hq, hq2]
    · simp [Function.comp, hq]
  simp only [mapHas, List.any_map, hfun]

theorem mapHas_mapSet (st : List (String × TrafficEvent)) (k : String)
    (v : TrafficEvent) (i : String) :
    mapHas (mapSet st k v) i = (mapHas st i || (k == i)) := by
  unfold mapSet
  by_cases h : mapHas st k
  · rw [if_pos h, mapHas_map_replace]
    by_cases hki : k == i
    · have : k = i := by simpa using hki
      subst this
      rw [h]
      simp
    · simp [hki]
  · rw [if_neg h]
    simp [mapHas, List.any_append]

theorem checkEventsLoop_keys (now : ℤ) (route : List Coord)
    (st : List (String × TrafficEvent)) (es : List TrafficEvent) (i : String) :
    mapHas (checkEventsLoop now route st es).1 i =
      (mapHas st i || es.any (fun e => e.id == i)) := by
  induction es generalizing st with
  | nil => simp [checkEventsLoop]
  | cons e rest ih =>
    simp only [checkEventsLoop]
    rw [ih, mapHas_mapSet]
    simp [Bool.or_assoc]

theorem checkEventsLoop_alerts_affect (now : ℤ) (route : List Coord)
    (st : List (String × TrafficEvent)) (es : List TrafficEvent) :
    ∀ a ∈ (checkEventsLoop now route st es).2, checkEventAffectsRoute route a.event := by
  induction es generalizing st with
  | nil => intro a ha; simp [checkEventsLoop] at ha
  | cons e rest ih =>
    intro a ha
    simp only [checkEventsLoop, List.mem_append] at ha
    rcases ha with ha | ha
    · by_cases hc : (!(mapHas st e.id)) = true ∧ checkEventAffectsRoute route e
      · rw [if_pos hc] at ha
        rcases List.mem_singleton.1 ha with rfl
        exact hc.2
      · rw [if_neg hc] at ha
        cases ha
    · exact ih (mapSet st e.id e) a ha

theorem countAlertsWithId_append (x y : List TrafficAlert) (i : String) :
    countAlertsWithId (x ++ y) i = countAlertsWithId x i + countAlertsWithId y i := by
  simp [countAlertsWithId, List.filter_append]

theorem checkEventsLoop_count_zero (now : ℤ) (route : List Coord)
    (st : List (String × TrafficEvent)) (es : List TrafficEvent) (i : String)
    (h : mapHas st i = true) :
    countAlertsWithId (checkEventsLoop now route st es).2 i = 0 := by
  induction es generalizing st with
  | nil => rfl
  | cons e rest ih
  =>
    have hst1 : mapHas (mapSet st e.id e) i = true := by
      rw [mapHas_mapSet, h]
      rfl
    have hrest := ih (mapSet st e.id e) hst1
    simp only [checkEventsLoop]
    rw [countAlertsWithId_append, hrest]
    by_cases hc : (!(mapHas st e.id)) = true ∧ checkEventAffectsRoute route e
    · have hnew : mapHas st e.id = false := by simpa using hc.1
      have hne : (e.id == i) = false := by
        refine beq_eq_false_iff_ne.2 fun hei => ?_
        rw [hei, h] at hnew
        cases hnew
      rw [if_pos hc]
      simp [countAlertsWithId, createAlert, hne]
    · rw [if_neg hc]
      rfl

theorem checkEventsLoop_count_one (now : ℤ) (route : List Coord)
    (st : List (String × TrafficEvent)) (es : List TrafficEvent) (e : TrafficEvent)
    (hst : mapHas st e.id = false) (hnd : (es.map (·.id)).Nodup) (he : e ∈ es)
    (haff : checkEventAffectsRoute route e) :
    countAlertsWithId (checkEventsLoop now route st es).2 e.id = 1 := by
  induction es generalizing st with
  | nil => cases he
  | cons f rest ih =>
    simp only [List.map_cons, List.nodup_cons, List.mem_map] at hnd
    simp only [checkEventsLoop]
    rw [countAlertsWithId_append]
    rcases List.mem_cons.1 he with rfl | hmem
    · have hc : (!(mapHas st e.id)) = true ∧ checkEventAffectsRoute route e :=
        ⟨by rw [hst]; rfl, haff⟩
      rw [if_pos hc]
      have hnext : mapHas (mapSet st e.id e) e.id = true := by
        rw [mapHas_mapSet]
        simp
      rw [checkEventsLoop_count_zero now route _ rest e.id hnext]
      simp [countAlertsWithId, createAlert]
    · have hfe : f.id ≠ e.id := by
        intro hid
        exact hnd.1 ⟨e, hmem, hid.symm⟩
      have hst1 : mapHas (mapSet st f.id f) e.id = false := by
        rw [mapHas_mapSet, hst]
        simpa using hfe
      have htail := ih (mapSet st f.id f) hst1 hnd.2 hmem
      rw [htail]
      by_cases hc : (!(mapHas st f.id)) = true ∧ checkEventAffectsRoute route f
      · rw [if_pos hc]
        simp [countAlertsWithId, createAlert, beq_eq_false_iff_ne.2 hfe]
      · rw [if_neg hc]
        rfl

theorem completePoll_alerts (now : ℤ) (s : MonState) (snap : List TrafficEvent) :
    (completePoll now s snap).2 =
      (checkEventsLoop now s.currentRoute s.lastEvents snap).2 :=
  rfl

theorem completePoll_route (now : ℤ) (s : MonState) (snap : List TrafficEvent) :
    (completePoll now s snap).1.currentRoute = s.currentRoute :=
  rfl

theorem completePoll_monitoring (now : ℤ) (s : MonState) (snap : List TrafficEvent) :
    (completePoll now s snap).1.isMonitoring = s.isMonitoring :=
  rfl

theorem mapHas_filter_snap (st : List (String × TrafficEvent))
    (snap : List TrafficEvent) (i : String) :
    mapHas (st.filter (fun p => snap.any (fun e => e.id == p.1))) i =
      (mapHas st i && snap.any (fun e => e.id == i)) := by
  induction st with
  | nil => rfl
  | cons p t ih =>
    simp only [mapHas, List.any_cons] at ih ⊢
    by_cases hks : (snap.any fun e => e.id == p.1) = true
    · rw [List.filter_cons_of_pos (by simpa using hks)]
      simp only [List.any_cons]
      by_cases hp : p.1 = i
      · subst hp
        simp [hks, ih]
      · have hpb : (p.1 == i) = false := beq_eq_false_iff_ne.2 hp
        simp [hpb, ih]
    · rw [List.filter_cons_of_neg (by simpa using hks)]
      rw [ih]
      rw [Bool.not_eq_true] at hks
      by_cases hp : p.1 = i
      · subst hp
        simp [hks]
      · have hpb : (p.1 == i) = false := beq_eq_false_iff_ne.2 hp
        simp [hpb]

theorem completePoll_keys (now : ℤ) (s : MonState) (snap : List TrafficEvent)
    (i : String) :
    mapHas (completePoll now s snap).1.lastEvents i = snap.any (fun e => e.id == i) := by
  show mapHas (((checkEventsLoop now s.currentRoute s.lastEvents snap).1).filter
      (fun p => snap.any (fun e => e.id == p.1))) i = snap.any (fun e => e.id == i)
  rw [mapHas_filter_snap, checkEventsLoop_keys]
  cases h : snap.any (fun e => e.id == i) <;> simp [h]

/-! ## C4 -/

/-- Actions that can re-arm a stopped monitor: `startMonitoring`, and the
unguarded `updateRoute`, which repopulates `currentRoute` even while the
monitor is stopped. -/
def reArmsAct : MonAct → Bool
  | .start _ _ => true
  | .updateRoute _ => true
  | _ => false

theorem runActs_no_alerts_of_stopped (keyOk : Bool) (now : ℤ) (s : MonState)
    (acts : List MonAct) (hmon : s.isMonitoring = false)
    (hroute : s.currentRoute = [])
    (hacts : ∀ a ∈ acts, reArmsAct a = false) :
    (runActs keyOk now s acts).2 = [] := by
  induction acts generalizing s with
  | nil => rfl
  | cons a rest ih =>
    have hrest : ∀ b ∈ rest, reArmsAct b = false :=
      fun b hb => hacts b (List.mem_cons_of_mem a hb)
    cases a with
    | tick snap =>
      simp only [runActs, stepAct, hmon, Bool.false_eq_true, if_false]
      simpa using ih s hmon hroute hrest
    | lateComplete snap =>
      simp only [runActs, stepAct]
      have halerts : (completePoll now s snap).2 = [] := by
        rw [completePoll_alerts, hroute]
        exact checkEventsLoop_nil_route now s.lastEvents snap
      rw [halerts]
      simpa using ih (completePoll now s snap).1
        (by rw [completePoll_monitoring]; exact hmon)
        (by rw [completePoll_route]; exact hroute) hrest
    | stop =>
      simp only [runActs, stepAct]
      simpa using ih (stopMonitoring s) rfl rfl hrest
    | start route snap =>
      have := hacts (MonAct.start route snap) (List.mem_cons_self _ _)
      simp [reArmsAct] at this
    | updateRoute route =>
      have := hacts (MonAct.updateRoute route) (List.mem_cons_self _ _)
      simp [reArmsAct] at this

/-- C4 (amended): after `stopMonitoring` returns, no sequence of scheduled
ticks, further stops and completions of polls that were in flight at stop
time ever emits an Alert, provided no re-arming action (a start, or the
unguarded `updateRoute`) occurs in between; `updateRoute` after stop
repopulates the cleared route, after which an in-flight completion can
alert. -/
theorem stop_discards_inflight_alerts (keyOk : Bool) (now : ℤ) (s : MonState)
    (acts : List MonAct) (hacts : ∀ a ∈ acts, reArmsAct a = false) :
    (runActs keyOk now (stopMonitoring s) acts).2 = [] :=
  runActs_no_alerts_of_stopped keyOk now (stopMonitoring s) acts rfl rfl hacts

/-- A concrete traffic event for the monitor witnesses. -/
def sampleEvent : TrafficEvent :=
  ⟨"e1", .accident, "交通事故", "事故", "2024-01-01", ⟨0, 0⟩, "测试路", .severe, none⟩

/-- A concrete monitoring state. -/
def sampleMonState : MonState := ⟨true, [⟨0, 0⟩, ⟨1, 0⟩], []⟩

/-- Witness for C4: a concrete stopped monitor processes an in-flight
completion, a tick and another stop without emitting an alert. -/
theorem stop_discards_inflight_alerts_witness :
    (runActs true 0 (stopMonitoring sampleMonState)
        [MonAct.lateComplete [sampleEvent], MonAct.tick [sampleEvent], MonAct.stop]).2 = [] :=
  stop_discards_inflight_alerts true 0 sampleMonState
    [MonAct.lateComplete [sampleEvent], MonAct.tick [sampleEvent], MonAct.stop]
    (by decide)

/-! ## C5 -/

/-- C5 counterexample: with the monitor stopped, the completion of a poll
that was in flight at stop time re-inserts the snapshot's event into the
active-event map — it does not stay empty. -/
theorem inflight_refills_events_after_stop :
    (stepAct true 0 (stopMonitoring sampleMonState)
        (MonAct.lateComplete [sampleEvent])).1.lastEvents = [("e1", sampleEvent)] ∧
      ((stepAct true 0 (stopMonitoring sampleMonState)
          (MonAct.lateComplete [sampleEvent])).1.lastEvents = [] ↔ False) := by
  have h : (stepAct true 0 (stopMonitoring sampleMonState)
      (MonAct.lateComplete [sampleEvent])).1.lastEvents = [("e1", sampleEvent)] := rfl
  exact ⟨h, by rw [h]; simp⟩

/-- Scheduled actions: the gated interval tick and `stopMonitoring` itself. -/
def isSchedAct : MonAct → Bool
  | .tick _ => true
  | .stop => true
  | _ => false

theorem runActs_sched_stays_empty (keyOk : Bool) (now : ℤ) (s : MonState)
    (acts : List MonAct) (hmon : s.isMonitoring = false) (hlast : s.lastEvents = [])
    (hacts : ∀ a ∈ acts, isSchedAct a = true) :
    (runActs keyOk now s acts).1.lastEvents = [] ∧
      (runActs keyOk now s acts).1.isMonitoring = false ∧
      (runActs keyOk now s acts).2 = [] := by
  induction acts generalizing s with
  | nil => exact ⟨hlast, hmon, rfl⟩
  | cons a rest ih =>
    have hrest : ∀ b ∈ rest, isSchedAct b = true :=
      fun b hb => hacts b (List.mem_cons_of_mem a hb)
    cases a with
    | tick snap =>
      simp only [runActs, stepAct, hmon, Bool.false_eq_true, if_false]
      simpa using ih s hmon hlast hrest
    | stop =>
      simp only [runActs, stepAct]
      simpa using ih (stopMonitoring s) rfl rfl hrest
    | lateComplete snap =>
      have := hacts (MonAct.lateComplete snap) (List.mem_cons_self _ _)
      simp [isSchedAct] at this
    | start route snap =>
      have := hacts (MonAct.start route snap) (List.mem_cons_self _ _)
      simp [isSchedAct] at this
    | updateRoute route =>
      have := hacts (MonAct.updateRoute route) (List.mem_cons_self _ _)
      simp [isSchedAct] at this

/-- C5 (amended): `stopMonitoring` leaves the monitor Idle with an empty
active-event map and an empty route, and scheduled activity (gated ticks,
repeated stops) keeps the map empty with no alerts; but the completion of a
poll in flight at stop time, while still emitting no alert, re-inserts the
snapshot's events into the active-event map (its keys become exactly the
snapshot's ids), so the map does not stay empty until restart. -/
theorem stop_idle_empty_until_restart (keyOk : Bool) (now : ℤ) (s : MonState)
    (snap : List TrafficEvent) (acts : List MonAct)
    (hacts : ∀ a ∈ acts, isSchedAct a = true) :
    (stopMonitoring s).isMonitoring = false ∧
      (stopMonitoring s).lastEvents = [] ∧
      (stopMonitoring s).currentRoute = [] ∧
      (runActs keyOk now (stopMonitoring s) acts).1.lastEvents = [] ∧
      (runActs keyOk now (stopMonitoring s) acts).2 = [] ∧
      (stepAct keyOk now (stopMonitoring s) (MonAct.lateComplete snap)).2 = [] ∧
      (∀ i, mapHas (stepAct keyOk now (stopMonitoring s)
          (MonAct.lateComplete snap)).1.lastEvents i = snap.any (fun e => e.id == i)) := by
  obtain ⟨hl, hm, ha⟩ :=
    runActs_sched_stays_empty keyOk now (stopMonitoring s) acts rfl rfl hacts
  refine ⟨rfl, rfl, rfl, hl, ha, ?_, ?_⟩
  · show (completePoll now (stopMonitoring s) snap).2 = []
    rw [completePoll_alerts]
    exact checkEventsLoop_nil_route now _ snap
  · intro i
    exact completePoll_keys now (stopMonitoring s) snap i

/-- Witness for C5's amended theorem at a concrete stopped monitor, one
in-flight snapshot and a scheduled tick-stop trace. -/
theorem stop_idle_empty_witness :
    (stopMonitoring sampleMonState).isMonitoring = false ∧
      (stopMonitoring sampleMonState).lastEvents = [] ∧
      (stopMonitoring sampleMonState).currentRoute = [] ∧
      (runActs true 0 (stopMonitoring sampleMonState)
          [MonAct.tick [sampleEvent], MonAct.stop]).1.lastEvents = [] ∧
      (runActs true 0 (stopMonitoring sampleMonState)
          [MonAct.tick [sampleEvent], MonAct.stop]).2 = [] ∧
      (stepAct true 0 (stopMonitoring sampleMonState)
          (MonAct.lateComplete [sampleEvent])).2 = [] ∧
      (∀ i, mapHas (stepAct true 0 (stopMonitoring sampleMonState)
          (MonAct.lateComplete [sampleEvent])).1.lastEvents i =
        [sampleEvent].any (fun e => e.id == i)) :=
  stop_idle_empty_until_restart true 0 sampleMonState [sampleEvent]
    [MonAct.tick [sampleEvent], MonAct.stop] (by decide)

/-! ## C3 -/

theorem checkTrafficEvents_run (now : ℤ) (s : MonState) (snap : List TrafficEvent)
    (h2 : 2 ≤ s.currentRoute.length) :
    checkTrafficEvents true now s snap = completePoll now s snap := by
  unfold checkTrafficEvents
  rw [if_neg (by omega), if_neg (by simp)]

theorem pollSeq_alerts_affect (now : ℤ) (snaps : List (List TrafficEvent)) :
    ∀ s : MonState, ∀ al ∈ (pollSeq true now s snaps).1, ∀ a ∈ al,
      checkEventAffectsRoute s.currentRoute a.event := by
  induction snaps with
  | nil =>
    intro s al hal
    simp [pollSeq] at hal
  | cons sn rest ih =>
    intro s al hal a ha
    simp only [pollSeq, List.mem_cons] at hal
    by_cases hg : 2 ≤ s.currentRoute.length
    · rw [checkTrafficEvents_run now s sn hg] at hal
      rcases hal with rfl | hal
      · rw [completePoll_alerts] at ha
        exact checkEventsLoop_alerts_affect now s.currentRoute s.lastEvents sn a ha
      · have := ih (completePoll now s sn).1 al hal a ha
        rwa [completePoll_route] at this
    · have hstep : checkTrafficEvents true now s sn = (s, []) := by
        unfold checkTrafficEvents
        rw [if_pos (by omega)]
      rw [hstep] at hal
      rcases hal with rfl | hal
      · cases ha
      · exact ih s al hal a ha

theorem pollSeq_zero_after_seen (now : ℤ) (route : List Coord)
    (h2 : 2 ≤ route.length) (i : String) (snaps : List (List TrafficEvent)) :
    ∀ s : MonState, s.currentRoute = route → mapHas s.lastEvents i = true →
      (∀ sn ∈ snaps, sn.any (fun e => e.id == i) = true) →
      ∀ al ∈ (pollSeq true now s snaps).1, countAlertsWithId al i = 0 := by
  induction snaps with
  | nil =>
    intro s _ _ _ al hal
    simp [pollSeq] at hal
  | cons sn rest ih =>
    intro s hroute hhas hall al hal
    have hguard : checkTrafficEvents true now s sn = completePoll now s sn :=
      checkTrafficEvents_run now s sn (by rw [hroute]; exact h2)
    simp only [pollSeq, hguard, List.mem_cons] at hal
    rcases hal with rfl | hal
    · rw [completePoll_alerts]
      exact checkEventsLoop_count_zero now s.currentRoute s.lastEvents sn i hhas
    · refine ih (completePoll now s sn).1 ?_ ?_
        (fun b hb => hall b (List.mem_cons_of_mem sn hb)) al hal
      · rw [completePoll_route]
        exact hroute
      · rw [completePoll_keys]
        exact hall sn (List.mem_cons_self sn rest)

/-- C3: over a monitoring session on a real route (at least two points,
starting with no active events), every emitted Alert is for an event whose
minimum distance to the route polyline is below 500 m (so an event at 500 m
or more never alerts); and an affecting event id present in the first
snapshot alerts exactly once on that first-sighting poll and never again on
later polls while its id remains present in every consecutive snapshot. -/
theorem monitor_alert_once_per_sighting (now : ℤ) (route : List Coord)
    (snap0 : List TrafficEvent) (rest : List (List TrafficEvent)) (e : TrafficEvent)
    (h2 : 2 ≤ route.length) (hnd : (snap0.map (·.id)).Nodup) (he : e ∈ snap0)
    (haff : checkEventAffectsRoute route e)
    (hrest : ∀ sn ∈ rest, sn.any (fun ev => ev.id == e.id) = true) :
    ∃ al0 als,
      (pollSeq true now ⟨true, route, []⟩ (snap0 :: rest)).1 = al0 :: als ∧
      countAlertsWithId al0 e.id = 1 ∧
      (∀ al ∈ als, countAlertsWithId al e.id = 0) ∧
      (∀ snaps : List (List TrafficEvent),
        ∀ al ∈ (pollSeq true now ⟨true, route, []⟩ snaps).1,
          ∀ a ∈ al, checkEventAffectsRoute route a.event) := by
  have hs0 : (⟨true, route, []⟩ : MonState).currentRoute = route := rfl
  have hguard : checkTrafficEvents true now ⟨true, route, []⟩ snap0 =
      completePoll now ⟨true, route, []⟩ snap0 :=
    checkTrafficEvents_run now _ snap0 h2
  refine ⟨(completePoll now ⟨true, route, []⟩ snap0).2,
    (pollSeq true now (completePoll now ⟨true, route, []⟩ snap0).1 rest).1, ?_, ?_, ?_, ?_⟩
  · simp only [pollSeq, hguard]
  · rw [completePoll_alerts]
    exact checkEventsLoop_count_one now route [] snap0 e rfl hnd he haff
  · intro al hal
    refine pollSeq_zero_after_seen now route h2 e.id rest
      (completePoll now ⟨true, route, []⟩ snap0).1 (by rw [completePoll_route]) ?_
      hrest al hal
    rw [completePoll_keys]
    exact List.any_eq_true.2 ⟨e, he, by simp⟩
  · intro snaps al hal a ha
    exact pollSeq_alerts_affect now snaps ⟨true, route, []⟩ al hal a ha

/-- A concrete two-point route along the equator. -/
def monRoute : List Coord := [⟨0, 0⟩, ⟨1, 0⟩]

/-- A congestion event sitting exactly on the first route point. -/
def monEvent : TrafficEvent :=
  ⟨"cg1", .congestion, "拥堵", "测试路拥堵", "2024-01-01", ⟨0, 0⟩, "测试路", .moderate,
    some 10⟩

theorem monEvent_seg_distance :
    pointToSegmentDistance ⟨0, 0⟩ ⟨0, 0⟩ ⟨1, 0⟩ = some 0 := by
  have hcos : Real.cos (toRad ((0 + 0) / 2)) = 1 := by
    norm_num [toRad]
  simp only [pointToSegmentDistance, hcos]
  norm_num [fdiv]

theorem monEvent_affects : checkEventAffectsRoute monRoute monEvent := by
  refine ⟨by simp [monRoute], ?_⟩
  have hmin : calculateMinDistanceToRoute monRoute monEvent.location = FDist.fin 0 := by
    show minDistGo ⟨0, 0⟩ [⟨0, 0⟩, ⟨1, 0⟩] FDist.inf = FDist.fin 0
    simp only [minDistGo, monEvent_seg_distance, ofNaN, fminD]
  rw [hmin]
  show (0 : ℝ) < 500
  norm_num

/-- Witness for C3 at the concrete route and event, with the event sighted in
two consecutive snapshots. -/
theorem monitor_alert_once_witness :
    ∃ al0 als,
      (pollSeq true 0 ⟨true, monRoute, []⟩ [[monEvent], [monEvent]]).1 = al0 :: als ∧
      countAlertsWithId al0 monEvent.id = 1 ∧
      (∀ al ∈ als, countAlertsWithId al monEvent.id = 0) ∧
      (∀ snaps : List (List TrafficEvent),
        ∀ al ∈ (pollSeq true 0 ⟨true, monRoute, []⟩ snaps).1,
          ∀ a ∈ al, checkEventAffectsRoute monRoute a.event) :=
  monitor_alert_once_per_sighting 0 monRoute [monEvent] [[monEvent]] monEvent
    (by decide) (by decide) (by decide) monEvent_affects (by decide)

/-- C4 counterexample: the original claim fails on the program because
`updateRoute` has no `isMonitoring` guard.  In the trace stop →
`updateRoute` (a real two-point route) → completion of a poll that was in
flight, the completion sees a cleared event map and a repopulated route, so
it emits an Alert after `stopMonitoring` returned and with no start in
between. -/
theorem updateRoute_after_stop_alert :
    (runActs true 0 (stopMonitoring sampleMonState)
        [MonAct.updateRoute monRoute, MonAct.lateComplete [monEvent]]).2 =
      [createAlert 0 monEvent] ∧
      ((runActs true 0 (stopMonitoring sampleMonState)
          [MonAct.updateRoute monRoute, MonAct.lateComplete [monEvent]]).2 = [] ↔
        False) := by
  have hrun : (runActs true 0 (stopMonitoring sampleMonState)
      [MonAct.updateRoute monRoute, MonAct.lateComplete [monEvent]]).2 =
      [] ++ ((checkEventsLoop 0 monRoute [] [monEvent]).2 ++ []) := rfl
  have hloop : (checkEventsLoop 0 monRoute [] [monEvent]).2 =
      [createAlert 0 monEvent] := by
    simp only [checkEventsLoop]
    rw [if_pos ⟨rfl, monEvent_affects⟩]
    rfl
  have h : (runActs true 0 (stopMonitoring sampleMonState)
      [MonAct.updateRoute monRoute, MonAct.lateComplete [monEvent]]).2 =
      [createAlert 0 monEvent] := by
    rw [hrun, hloop]
    simp
  exact ⟨h, by rw [h]; simp⟩

end AIVoyage
